import Mathlib

/-!
# Warning & Recommendation Engine — verification development

Shallow embedding of the escalation-decision engine of `warningEngine.js`
(Cases A–E, the escalation resolver, the active-warning read filter, and the
warning-recording expiration computation), together with theorems settling the
spec claims.

Modelling conventions:
* Dates (`issue_date`, `expiration_date`, `action_date`, `start_date`,
  `CURRENT_DATE`, `Date.now()`) are integers counting days; `today` is the
  evaluation date (`CURRENT_DATE`).  The JavaScript
  `Date.now() + days * 24*60*60*1000` becomes `now + days` at day granularity.
* SQL reads become pure filters over an explicit list standing for the table
  rows.  `ORDER BY issue_date DESC` in `getActiveWarnings` only reorders rows;
  the engine only ever counts rows by type, which is order-insensitive, so the
  sort is not modelled.
* JavaScript objects `{applies:false}` / `{applies:true, ...}` become
  `Option` — `none` for "does not apply", `some payload` otherwise.
* String-typed columns (`warning_type`, `status`, flags, emails) stay `String`,
  compared with `==` exactly as the JavaScript/SQL compares them.
-/

/-- One row of `consolidations.warnings` (the fields the engine reads). -/
structure Warning where
  agent_email : String
  metric_type : String
  warning_type : String
  status : String
  issue_date : Int
  expiration_date : Option Int
  deriving Repr, DecidableEq

/-- Embedding of `getActiveWarnings` (warningEngine.js:37): rows of the warnings table with
`agent_email = $1 AND metric_type = $2 AND status = Active AND
(expiration_date IS NULL OR expiration_date >= CURRENT_DATE)`. -/
def getActiveWarnings (store : List Warning) (today : Int)
    (agentEmail metricType : String) : List Warning :=
  store.filter (fun w =>
    w.agent_email == agentEmail && w.metric_type == metricType &&
    w.status == "Active" &&
    (match w.expiration_date with
     | none => true
     | some d => d ≥ today))

/-- Embedding of `countWarningsByType` (warningEngine.js:54). -/
def countWarningsByType (warnings : List Warning) (warningType : String) : Nat :=
  (warnings.filter (fun w => w.warning_type == warningType)).length

/-- The recommendation payload returned by the case evaluators and the
resolver (`case`, `recommendation`, `priority`, `details`, plus the
agent/metric/week metadata the resolver attaches).  The JavaScript field
`case` is spelled `caseType` (matching the `case_type` column) because `case`
is reserved in Lean. -/
structure Recommendation where
  caseType : String
  recommendation : String
  priority : String
  details : String
  agentEmail : String
  metricType : String
  weekStartDate : Int
  weekEndDate : Int
  deriving Repr, DecidableEq

/-- Embedding of `evaluateCaseA` (warningEngine.js:103): fires iff the count of active
Verbal warnings is exactly 1. -/
def evaluateCaseA (warnings : List Warning) : Option Recommendation :=
  let verbalWarnings := countWarningsByType warnings "Verbal"
  if verbalWarnings = 1 then
    some { caseType := "A"
           recommendation := "Second Verbal Warning + Coaching/Reinforcement"
           priority := "Medium"
           details := "Agent has 1 verbal warning and is underperforming again. Issue second verbal warning and provide coaching."
           agentEmail := "", metricType := "", weekStartDate := 0, weekEndDate := 0 }
  else none

/-- Embedding of `evaluateCaseB` (warningEngine.js:124): fires iff the count of active
Verbal warnings is ≥ 2. -/
def evaluateCaseB (warnings : List Warning) : Option Recommendation :=
  let verbalWarnings := countWarningsByType warnings "Verbal"
  if verbalWarnings ≥ 2 then
    some { caseType := "B"
           recommendation := "Written Warning - Substandard Work"
           priority := "High"
           details := "Agent has 2 verbal warnings and is still underperforming. Issue formal written warning for substandard work."
           agentEmail := "", metricType := "", weekStartDate := 0, weekEndDate := 0 }
  else none

/-- Embedding of `evaluateCaseC` (warningEngine.js:145): fires iff the count of active
Written warnings is ≥ 2. -/
def evaluateCaseC (warnings : List Warning) : Option Recommendation :=
  let writtenWarnings := countWarningsByType warnings "Written"
  if writtenWarnings ≥ 2 then
    some { caseType := "C"
           recommendation := "Prepare Employee Offboarding"
           priority := "Critical"
           details := "Agent has 2 written warnings and continues to underperform. Agent is at risk. Prepare for offboarding process."
           agentEmail := "", metricType := "", weekStartDate := 0, weekEndDate := 0 }
  else none

/-- Attaching the agent/metric/week metadata to the result of a firing evaluator,
as `generateRecommendation` does on each `result.applies` branch. -/
def attachMeta (r : Recommendation) (agentEmail metricType : String)
    (weekStartDate weekEndDate : Int) : Recommendation :=
  { r with agentEmail := agentEmail, metricType := metricType,
           weekStartDate := weekStartDate, weekEndDate := weekEndDate }

/-- Embedding of `generateRecommendation` (warningEngine.js:229): fetch active warnings,
try the evaluators in the fixed order C, B, A, return the first that applies
with the metadata attached, else the `First` fallback. -/
def generateRecommendation (store : List Warning) (today : Int)
    (agentEmail metricType : String) (weekStartDate weekEndDate : Int) :
    Recommendation :=
  let warnings := getActiveWarnings store today agentEmail metricType
  match evaluateCaseC warnings with
  | some result => attachMeta result agentEmail metricType weekStartDate weekEndDate
  | none =>
    match evaluateCaseB warnings with
    | some result => attachMeta result agentEmail metricType weekStartDate weekEndDate
    | none =>
      match evaluateCaseA warnings with
      | some result => attachMeta result agentEmail metricType weekStartDate weekEndDate
      | none =>
        { caseType := "First"
          recommendation := "First Verbal Warning"
          priority := "Low"
          details := "Agent is underperforming for the first time. Issue first verbal warning."
          agentEmail := agentEmail
          metricType := metricType
          weekStartDate := weekStartDate
          weekEndDate := weekEndDate }

/-- One row of `consolidations.data_qperform_weekly` (the fields
`evaluateCaseD` reads). -/
structure WeekData where
  flag_qa : String
  flag_prod : String
  start_date : Int
  deriving Repr, DecidableEq

/-- The underperformance test of `evaluateCaseD` (warningEngine.js:168):
the QA or Production flag of the week is `Low` or `Critical`. -/
def isUnderperformingWeek (w : WeekData) : Bool :=
  w.flag_qa == "Low" || w.flag_qa == "Critical" ||
  w.flag_prod == "Low" || w.flag_prod == "Critical"

/-- One row of `consolidations.action_log` (the fields `checkLeaderAction`
reads). -/
structure ActionLogEntry where
  agent_email : String
  action_date : Int
  deriving Repr, DecidableEq

/-- Embedding of `checkLeaderAction` (warningEngine.js:79): counts warnings with
`issue_date` in `[$2 - 7 days, $2 + 7 days]` plus action-log entries with
`action_date` in the same inclusive window, for the agent; returns
`action_count > 0`. -/
def checkLeaderAction (warningsTable : List Warning)
    (actionLog : List ActionLogEntry) (agentEmail : String)
    (weekStartDate : Int) : Bool :=
  let actionCount :=
    (warningsTable.filter (fun w =>
      w.agent_email == agentEmail &&
      decide (w.issue_date ≥ weekStartDate - 7) &&
      decide (w.issue_date ≤ weekStartDate + 7))).length +
    (actionLog.filter (fun a =>
      a.agent_email == agentEmail &&
      decide (a.action_date ≥ weekStartDate - 7) &&
      decide (a.action_date ≤ weekStartDate + 7))).length
  actionCount > 0

/-- The payload `evaluateCaseD` / `evaluateCaseE` return when they apply
(the agent-metadata fields are not attached on this path; `leaderEmail` is). -/
structure LeaderRecommendation where
  caseType : String
  recommendation : String
  priority : String
  details : String
  leaderEmail : String
  deriving Repr, DecidableEq

/-- Embedding of `evaluateCaseD` (warningEngine.js:166): the weeks with a Low/Critical QA
or Production flag are collected; with ≤ 2 of them the case does not apply;
otherwise it applies iff `checkLeaderAction` finds no warning or action-log
entry in the ±7-day window around the `start_date` of the first
underperforming week.  (The `[]` branch is unreachable: the length guard forces the
filtered list to be nonempty.) -/
def evaluateCaseD (warningsTable : List Warning)
    (actionLog : List ActionLogEntry) (agentEmail leaderEmail : String)
    (weeksData : List WeekData) : Option LeaderRecommendation :=
  let underperformingWeeks := weeksData.filter isUnderperformingWeek
  if underperformingWeeks.length ≤ 2 then
    none
  else
    match underperformingWeeks with
    | [] => none
    | firstWeek :: _ =>
      if checkLeaderAction warningsTable actionLog agentEmail firstWeek.start_date then
        none
      else
        some { caseType := "D"
               recommendation := "Leadership Behavior Report + Verbal Warning for Leader"
               priority := "High"
               details := "Agent has been underperforming for " ++
                 toString underperformingWeeks.length ++
                 " weeks with no documented actions from direct leader. Issue leadership behavior report."
               leaderEmail := leaderEmail }

/-- One row of `consolidations.leadership_reports` (the fields
`evaluateCaseE` reads). -/
structure LeadershipReport where
  leader_email : String
  is_active : Bool
  issued_date : Int
  expires_date : Option Int
  deriving Repr, DecidableEq

/-- The active-report read inside `evaluateCaseE` (warningEngine.js:201):
rows with `leader_email = $1 AND is_active = true AND (expires_date IS NULL
OR expires_date >= CURRENT_DATE)`.  (`ORDER BY issued_date DESC` only
reorders rows; the evaluator only tests the row count.) -/
def getActiveLeadershipReports (reportsTable : List LeadershipReport)
    (today : Int) (leaderEmail : String) : List LeadershipReport :=
  reportsTable.filter (fun r =>
    r.leader_email == leaderEmail && r.is_active &&
    (match r.expires_date with
     | none => true
     | some d => d ≥ today))

/-- Embedding of `evaluateCaseE` (warningEngine.js:199): applies iff the leader has ≥ 1
active, unexpired leadership report; the payload is fixed. -/
def evaluateCaseE (reportsTable : List LeadershipReport) (today : Int)
    (leaderEmail : String) : Option LeaderRecommendation :=
  let reports := getActiveLeadershipReports reportsTable today leaderEmail
  if reports.length ≥ 1 then
    some { caseType := "E"
           recommendation := "Second Leadership Behavior Report + Written Warning for Leader"
           priority := "Critical"
           details := "Leader has failed to follow procedures again within warning period. Issue written warning."
           leaderEmail := leaderEmail }
  else none

/-- Embedding of `WARNING_EXPIRATION` (warningEngine.js:20): configured durations in days;
`Coaching` maps to `null` and any other key is absent — both are falsy in the
JavaScript guard, so both become `none`. -/
def WARNING_EXPIRATION (warningType : String) : Option Nat :=
  if warningType == "Verbal" then some 90
  else if warningType == "Written" then some 180
  else none

/-- The caller-supplied fields of `warningData` that `recordWarning` uses to
compute the stored row (`issuedDate` is optional: `issuedDate || new Date()`). -/
structure WarningInput where
  warningType : String
  issuedDate : Option Int
  deriving Repr, DecidableEq

/-- The stored-row fields `recordWarning` computes (rest of the row is copied
verbatim from the input). -/
structure WarningRow where
  warning_level : Nat
  issue_date : Int
  expiration_date : Option Int
  status : String
  deriving Repr, DecidableEq

/-- Embedding of `recordWarning` (warningEngine.js:314), the computed part of the inserted
row: `warning_level` is 2 for Written, 0 for Coaching, else 1; the expiration
is `Date.now() + WARNING_EXPIRATION[warningType] days` when the configured
duration is truthy and `null` otherwise; the issue date is
`issuedDate || new Date()`; the status is `Active`.  `now` is the current
date at recording time. -/
def recordWarningRow (now : Int) (warningData : WarningInput) : WarningRow :=
  let warningLevel : Nat :=
    if warningData.warningType == "Written" then 2
    else if warningData.warningType == "Coaching" then 0
    else 1
  let expiresDate : Option Int :=
    match WARNING_EXPIRATION warningData.warningType with
    | some days => some (now + (days : Int))
    | none => none
  { warning_level := warningLevel
    issue_date := warningData.issuedDate.getD now
    expiration_date := expiresDate
    status := "Active" }

/-- Modelled from the spec: the agent-ladder rule set as §4.1 describes it
(no such classifier exists in the source; the resolver in the source always
falls back to `First`).  Per the wording of the spec, Case C covers active Written
count ≥ 2; Case B covers active Verbal count ≥ 2 when C did not fire; Case A
covers active Verbal count exactly 1 when neither C nor B fired; and the
fallback First covers "the agent has no currently-active relevant warnings",
i.e. 0 active Verbal and 0 active Written.  An input is unambiguously
classified iff one of the four descriptions applies. -/
def specRuleSetClassifies (warnings : List Warning) : Prop :=
  let verbal := countWarningsByType warnings "Verbal"
  let written := countWarningsByType warnings "Written"
  written ≥ 2 ∨
  (verbal ≥ 2 ∧ written < 2) ∨
  (verbal = 1 ∧ written < 2) ∨
  (verbal = 0 ∧ written = 0)

instance (warnings : List Warning) : Decidable (specRuleSetClassifies warnings) := by
  unfold specRuleSetClassifies
  exact inferInstance

/-- Sample active Verbal warning used by concrete witnesses. -/
def sampleVerbal : Warning :=
  { agent_email := "agent@example.com", metric_type := "QA",
    warning_type := "Verbal", status := "Active",
    issue_date := 0, expiration_date := none }

/-- Sample active Written warning used by concrete witnesses. -/
def sampleWritten : Warning :=
  { agent_email := "agent@example.com", metric_type := "QA",
    warning_type := "Written", status := "Active",
    issue_date := 0, expiration_date := none }

/-- Sample Written warning whose expiration date lies strictly before
evaluation date 0, so it is expired at that date. -/
def expiredWritten : Warning :=
  { agent_email := "agent@example.com", metric_type := "QA",
    warning_type := "Written", status := "Active",
    issue_date := -100, expiration_date := some (-1) }

/-- Store holding exactly one active Written warning. -/
def oneWrittenStore : List Warning := [sampleWritten]

/-- Sample week flagged Low on QA, used by concrete witnesses. -/
def badWeek : WeekData := { flag_qa := "Low", flag_prod := "OK", start_date := 100 }

/-- Three underperforming weeks, enough to clear the > 2 threshold of Case D. -/
def threeBadWeeks : List WeekData :=
  [badWeek,
   { flag_qa := "OK", flag_prod := "Critical", start_date := 107 },
   { flag_qa := "Low", flag_prod := "Low", start_date := 114 }]

/-- Sample active, unexpired leadership report used by concrete witnesses. -/
def sampleReport : LeadershipReport :=
  { leader_email := "lead@example.com", is_active := true,
    issued_date := -10, expires_date := none }

/-- Recording input with an explicitly supplied issue date (day 0) for a
Verbal warning; used to exhibit the expiration-anchoring discrepancy. -/
def c8Input : WarningInput := { warningType := "Verbal", issuedDate := some 0 }

/-- Helper: `attachMeta` does not change the case, recommendation, priority
or details fields. -/
theorem attachMeta_fields (r : Recommendation) (a m : String) (ws we : Int) :
    (attachMeta r a m ws we).caseType = r.caseType ∧
    (attachMeta r a m ws we).priority = r.priority ∧
    (attachMeta r a m ws we).recommendation = r.recommendation :=
  ⟨rfl, rfl, rfl⟩

/-- Helper: a result of `evaluateCaseC` carries case C with Critical
priority. -/
theorem evaluateCaseC_fields {warnings : List Warning} {p : Recommendation}
    (h : evaluateCaseC warnings = some p) :
    p.caseType = "C" ∧ p.priority = "Critical" := by
  unfold evaluateCaseC at h
  dsimp only at h
  split at h
  · cases h; exact ⟨rfl, rfl⟩
  · cases h

/-- Helper: a result of `evaluateCaseB` carries case B with High priority. -/
theorem evaluateCaseB_fields {warnings : List Warning} {p : Recommendation}
    (h : evaluateCaseB warnings = some p) :
    p.caseType = "B" ∧ p.priority = "High" := by
  unfold evaluateCaseB at h
  dsimp only at h
  split at h
  · cases h; exact ⟨rfl, rfl⟩
  · cases h

/-- Helper: a result of `evaluateCaseA` carries case A with Medium
priority. -/
theorem evaluateCaseA_fields {warnings : List Warning} {p : Recommendation}
    (h : evaluateCaseA warnings = some p) :
    p.caseType = "A" ∧ p.priority = "Medium" := by
  unfold evaluateCaseA at h
  dsimp only at h
  split at h
  · cases h; exact ⟨rfl, rfl⟩
  · cases h

/-- Helper: Case C does not fire below 2 active Written warnings. -/
theorem evaluateCaseC_eq_none {warnings : List Warning}
    (h : countWarningsByType warnings "Written" < 2) :
    evaluateCaseC warnings = none := by
  unfold evaluateCaseC
  dsimp only
  exact if_neg (by omega)

/-- Helper: Case B does not fire below 2 active Verbal warnings. -/
theorem evaluateCaseB_eq_none {warnings : List Warning}
    (h : countWarningsByType warnings "Verbal" < 2) :
    evaluateCaseB warnings = none := by
  unfold evaluateCaseB
  dsimp only
  exact if_neg (by omega)

/-- Helper: Case A does not fire unless the active Verbal count is exactly
1. -/
theorem evaluateCaseA_eq_none {warnings : List Warning}
    (h : countWarningsByType warnings "Verbal" ≠ 1) :
    evaluateCaseA warnings = none := by
  unfold evaluateCaseA
  dsimp only
  exact if_neg h

/-- C1: evaluation of a warning list is a total function returning exactly
one outcome whose case is in {A, B, C, First}; the evaluators are tried in
the fixed precedence order C, then B, then A, first match winning, and when
none applies the fallback First outcome (priority Low) is returned.
(`generateRecommendation` is a Lean function into `Recommendation`, so the
result exists and is unique by construction; the conjuncts pin down the case
membership and the precedence order.) -/
theorem c1_resolver_total_ordered (store : List Warning) (today : Int)
    (agentEmail metricType : String) (ws we : Int) :
    ((generateRecommendation store today agentEmail metricType ws we).caseType = "C" ∨
     (generateRecommendation store today agentEmail metricType ws we).caseType = "B" ∨
     (generateRecommendation store today agentEmail metricType ws we).caseType = "A" ∨
     (generateRecommendation store today agentEmail metricType ws we).caseType = "First") ∧
    (∀ p, evaluateCaseC (getActiveWarnings store today agentEmail metricType) = some p →
       generateRecommendation store today agentEmail metricType ws we =
         attachMeta p agentEmail metricType ws we) ∧
    (∀ p, evaluateCaseC (getActiveWarnings store today agentEmail metricType) = none →
       evaluateCaseB (getActiveWarnings store today agentEmail metricType) = some p →
       generateRecommendation store today agentEmail metricType ws we =
         attachMeta p agentEmail metricType ws we) ∧
    (∀ p, evaluateCaseC (getActiveWarnings store today agentEmail metricType) = none →
       evaluateCaseB (getActiveWarnings store today agentEmail metricType) = none →
       evaluateCaseA (getActiveWarnings store today agentEmail metricType) = some p →
       generateRecommendation store today agentEmail metricType ws we =
         attachMeta p agentEmail metricType ws we) ∧
    (evaluateCaseC (getActiveWarnings store today agentEmail metricType) = none →
     evaluateCaseB (getActiveWarnings store today agentEmail metricType) = none →
     evaluateCaseA (getActiveWarnings store today agentEmail metricType) = none →
     (generateRecommendation store today agentEmail metricType ws we).caseType = "First" ∧
     (generateRecommendation store today agentEmail metricType ws we).priority = "Low") := by
  cases hC : evaluateCaseC (getActiveWarnings store today agentEmail metricType) with
  | some p =>
    have hg : generateRecommendation store today agentEmail metricType ws we =
        attachMeta p agentEmail metricType ws we := by
      unfold generateRecommendation
      dsimp only
      rw [hC]
    refine ⟨Or.inl (by rw [hg]; exact (evaluateCaseC_fields hC).1),
            fun q hq => Option.some.inj hq ▸ hg,
            fun q hc _ => Option.noConfusion hc,
            fun q hc _ _ => Option.noConfusion hc,
            fun hc _ _ => Option.noConfusion hc⟩
  | none =>
    cases hB : evaluateCaseB (getActiveWarnings store today agentEmail metricType) with
    | some p =>
      have hg : generateRecommendation store today agentEmail metricType ws we =
          attachMeta p agentEmail metricType ws we := by
        unfold generateRecommendation
        dsimp only
        rw [hC, hB]
      refine ⟨Or.inr (Or.inl (by rw [hg]; exact (evaluateCaseB_fields hB).1)),
              fun q hq => Option.noConfusion hq,
              fun q _ hq => Option.some.inj hq ▸ hg,
              fun q _ hb _ => Option.noConfusion hb,
              fun _ hb _ => Option.noConfusion hb⟩
    | none =>
      cases hA : evaluateCaseA (getActiveWarnings store today agentEmail metricType) with
      | some p =>
        have hg : generateRecommendation store today agentEmail metricType ws we =
            attachMeta p agentEmail metricType ws we := by
          unfold generateRecommendation
          dsimp only
          rw [hC, hB, hA]
        refine ⟨Or.inr (Or.inr (Or.inl (by rw [hg]; exact (evaluateCaseA_fields hA).1))),
                fun q hq => Option.noConfusion hq,
                fun q _ hq => Option.noConfusion hq,
                fun q _ _ hq => Option.some.inj hq ▸ hg,
                fun _ _ ha => Option.noConfusion ha⟩
      | none =>
        refine ⟨Or.inr (Or.inr (Or.inr ?_)),
                fun q hq => Option.noConfusion hq,
                fun q _ hq => Option.noConfusion hq,
                fun q _ _ hq => Option.noConfusion hq,
                fun _ _ _ => ⟨?_, ?_⟩⟩ <;>
          · unfold generateRecommendation
            dsimp only
            rw [hC, hB, hA]

/-- Witness for C1 at the empty store: all three evaluators decline and the
resolver returns the First fallback with priority Low. -/
theorem c1_witness :
    (generateRecommendation [] 0 "agent@example.com" "QA" 0 0).caseType = "First" ∧
    (generateRecommendation [] 0 "agent@example.com" "QA" 0 0).priority = "Low" :=
  (c1_resolver_total_ordered [] 0 "agent@example.com" "QA" 0 0).2.2.2.2
    (by decide) (by decide) (by decide)

/-- C2: with at least 2 active Written warnings the resolver returns case C
with priority Critical, regardless of the Verbal count (Case C is evaluated
first and dominates A and B). -/
theorem c2_caseC_dominates (store : List Warning) (today : Int)
    (agentEmail metricType : String) (ws we : Int)
    (h : 2 ≤ countWarningsByType (getActiveWarnings store today agentEmail metricType) "Written") :
    (generateRecommendation store today agentEmail metricType ws we).caseType = "C" ∧
    (generateRecommendation store today agentEmail metricType ws we).priority = "Critical" := by
  have hC : evaluateCaseC (getActiveWarnings store today agentEmail metricType) =
      some { caseType := "C"
             recommendation := "Prepare Employee Offboarding"
             priority := "Critical"
             details := "Agent has 2 written warnings and continues to underperform. Agent is at risk. Prepare for offboarding process."
             agentEmail := "", metricType := "", weekStartDate := 0, weekEndDate := 0 } := by
    unfold evaluateCaseC
    dsimp only
    exact if_pos h
  unfold generateRecommendation
  dsimp only
  rw [hC]
  exact ⟨rfl, rfl⟩

/-- Witness for C2: two active Written and three active Verbal warnings
still yield case C / Critical. -/
theorem c2_witness :
    (generateRecommendation [sampleWritten, sampleWritten, sampleVerbal, sampleVerbal, sampleVerbal]
      0 "agent@example.com" "QA" 0 0).caseType = "C" ∧
    (generateRecommendation [sampleWritten, sampleWritten, sampleVerbal, sampleVerbal, sampleVerbal]
      0 "agent@example.com" "QA" 0 0).priority = "Critical" :=
  c2_caseC_dominates [sampleWritten, sampleWritten, sampleVerbal, sampleVerbal, sampleVerbal]
    0 "agent@example.com" "QA" 0 0 (by decide)

/-- C3: with at least 2 active Verbal warnings and fewer than 2 active
Written warnings the resolver returns case B with priority High; the
hypothesis covers Verbal counts 2, 3 and beyond, so adding further active
Verbal warnings never moves the result below B. -/
theorem c3_caseB_threshold (store : List Warning) (today : Int)
    (agentEmail metricType : String) (ws we : Int)
    (hv : 2 ≤ countWarningsByType (getActiveWarnings store today agentEmail metricType) "Verbal")
    (hw : countWarningsByType (getActiveWarnings store today agentEmail metricType) "Written" < 2) :
    (generateRecommendation store today agentEmail metricType ws we).caseType = "B" ∧
    (generateRecommendation store today agentEmail metricType ws we).priority = "High" := by
  have hC : evaluateCaseC (getActiveWarnings store today agentEmail metricType) = none :=
    evaluateCaseC_eq_none hw
  have hB : evaluateCaseB (getActiveWarnings store today agentEmail metricType) =
      some { caseType := "B"
             recommendation := "Written Warning - Substandard Work"
             priority := "High"
             details := "Agent has 2 verbal warnings and is still underperforming. Issue formal written warning for substandard work."
             agentEmail := "", metricType := "", weekStartDate := 0, weekEndDate := 0 } := by
    unfold evaluateCaseB
    dsimp only
    exact if_pos hv
  unfold generateRecommendation
  dsimp only
  rw [hC, hB]
  exact ⟨rfl, rfl⟩

/-- Witness for C3: three active Verbal warnings and no Written warning
yield case B / High. -/
theorem c3_witness :
    (generateRecommendation [sampleVerbal, sampleVerbal, sampleVerbal]
      0 "agent@example.com" "QA" 0 0).caseType = "B" ∧
    (generateRecommendation [sampleVerbal, sampleVerbal, sampleVerbal]
      0 "agent@example.com" "QA" 0 0).priority = "High" :=
  c3_caseB_threshold [sampleVerbal, sampleVerbal, sampleVerbal]
    0 "agent@example.com" "QA" 0 0 (by decide) (by decide)

/-- C4: with exactly 1 active Verbal warning and 0 active Written warnings
the resolver returns case A with priority Medium; moreover the Case A
predicate is an equality test, firing exactly when the active Verbal count
is 1. -/
theorem c4_caseA_exact (store : List Warning) (today : Int)
    (agentEmail metricType : String) (ws we : Int)
    (hv : countWarningsByType (getActiveWarnings store today agentEmail metricType) "Verbal" = 1)
    (hw : countWarningsByType (getActiveWarnings store today agentEmail metricType) "Written" = 0) :
    ((generateRecommendation store today agentEmail metricType ws we).caseType = "A" ∧
     (generateRecommendation store today agentEmail metricType ws we).priority = "Medium") ∧
    (∀ warnings : List Warning,
       (evaluateCaseA warnings).isSome ↔ countWarningsByType warnings "Verbal" = 1) := by
  constructor
  · have hC : evaluateCaseC (getActiveWarnings store today agentEmail metricType) = none :=
      evaluateCaseC_eq_none (by omega)
    have hB : evaluateCaseB (getActiveWarnings store today agentEmail metricType) = none :=
      evaluateCaseB_eq_none (by omega)
    have hA : evaluateCaseA (getActiveWarnings store today agentEmail metricType) =
        some { caseType := "A"
               recommendation := "Second Verbal Warning + Coaching/Reinforcement"
               priority := "Medium"
               details := "Agent has 1 verbal warning and is underperforming again. Issue second verbal warning and provide coaching."
               agentEmail := "", metricType := "", weekStartDate := 0, weekEndDate := 0 } := by
      unfold evaluateCaseA
      dsimp only
      exact if_pos hv
    unfold generateRecommendation
    dsimp only
    rw [hC, hB, hA]
    exact ⟨rfl, rfl⟩
  · intro warnings
    unfold evaluateCaseA
    dsimp only
    split <;> simp [*]

/-- Witness for C4: a single active Verbal warning yields case A / Medium. -/
theorem c4_witness :
    (generateRecommendation [sampleVerbal] 0 "agent@example.com" "QA" 0 0).caseType = "A" ∧
    (generateRecommendation [sampleVerbal] 0 "agent@example.com" "QA" 0 0).priority = "Medium" :=
  (c4_caseA_exact [sampleVerbal] 0 "agent@example.com" "QA" 0 0 (by decide) (by decide)).1

/-- C5: a warning is in the active-warning read exactly when it belongs to
the store for the requested agent and metric, its status is Active, and its
expiration date is null or on/after the evaluation date; consequently a
store of 5 expired Written warnings (and nothing active) yields the First
fallback. -/
theorem c5_active_filter (store : List Warning) (today : Int)
    (agentEmail metricType : String) (w : Warning) :
    (w ∈ getActiveWarnings store today agentEmail metricType ↔
       w ∈ store ∧ w.agent_email = agentEmail ∧ w.metric_type = metricType ∧
       w.status = "Active" ∧
       (w.expiration_date = none ∨ ∃ d, w.expiration_date = some d ∧ today ≤ d)) ∧
    (generateRecommendation (List.replicate 5 expiredWritten)
       0 "agent@example.com" "QA" 0 0).caseType = "First" ∧
    (generateRecommendation (List.replicate 5 expiredWritten)
       0 "agent@example.com" "QA" 0 0).priority = "Low" := by
  refine ⟨?_, by decide, by decide⟩
  unfold getActiveWarnings
  rw [List.mem_filter]
  cases hexp : w.expiration_date with
  | none => simp [hexp]; tauto
  | some d => simp [hexp]; tauto

/-- Witness for C5: the expired Written warning is not in the active read at
evaluation date 0 (its expiration date -1 is strictly in the past). -/
theorem c5_witness :
    ¬ (expiredWritten ∈ getActiveWarnings (List.replicate 5 expiredWritten)
        0 "agent@example.com" "QA") := by
  intro hmem
  have h := (c5_active_filter (List.replicate 5 expiredWritten)
    0 "agent@example.com" "QA" expiredWritten).1.mp hmem
  rcases h.2.2.2.2 with hnone | ⟨d, hd, hle⟩
  · exact Option.noConfusion hnone
  · cases Option.some.inj hd
    omega

/-- Helper: with 0 active Verbal warnings and exactly 1 active Written
warning all three evaluators decline and the resolver returns the First
fallback with priority Low. -/
theorem firstFallback_of_counts (store : List Warning) (today : Int)
    (agentEmail metricType : String) (ws we : Int)
    (hv : countWarningsByType (getActiveWarnings store today agentEmail metricType) "Verbal" = 0)
    (hw : countWarningsByType (getActiveWarnings store today agentEmail metricType) "Written" = 1) :
    (generateRecommendation store today agentEmail metricType ws we).caseType = "First" ∧
    (generateRecommendation store today agentEmail metricType ws we).priority = "Low" := by
  have hC : evaluateCaseC (getActiveWarnings store today agentEmail metricType) = none :=
    evaluateCaseC_eq_none (by omega)
  have hB : evaluateCaseB (getActiveWarnings store today agentEmail metricType) = none :=
    evaluateCaseB_eq_none (by omega)
  have hA : evaluateCaseA (getActiveWarnings store today agentEmail metricType) = none :=
    evaluateCaseA_eq_none (by omega)
  unfold generateRecommendation
  dsimp only
  rw [hC, hB, hA]
  exact ⟨rfl, rfl⟩

/-- C10: with 0 active Verbal warnings and exactly 1 active Written warning
the resolver returns the First fallback with priority Low — one active
Written warning matches none of Cases A, B, C. -/
theorem c10_single_written_first (store : List Warning) (today : Int)
    (agentEmail metricType : String) (ws we : Int)
    (hv : countWarningsByType (getActiveWarnings store today agentEmail metricType) "Verbal" = 0)
    (hw : countWarningsByType (getActiveWarnings store today agentEmail metricType) "Written" = 1) :
    (generateRecommendation store today agentEmail metricType ws we).caseType = "First" ∧
    (generateRecommendation store today agentEmail metricType ws we).priority = "Low" :=
  firstFallback_of_counts store today agentEmail metricType ws we hv hw

/-- Witness for C10: a store holding exactly one active Written warning
yields the First fallback with priority Low. -/
theorem c10_witness :
    (generateRecommendation oneWrittenStore 0 "agent@example.com" "QA" 0 0).caseType = "First" ∧
    (generateRecommendation oneWrittenStore 0 "agent@example.com" "QA" 0 0).priority = "Low" :=
  c10_single_written_first oneWrittenStore 0 "agent@example.com" "QA" 0 0
    (by decide) (by decide)

/-- C6: Leadership Case D applies iff the period holds strictly more than 2
underperforming weeks (QA or Production flag Low/Critical) and no warning or
action-log entry for the agent is dated inside the ±7-day window around the
start date of the first underperforming week; the second conjunct
characterizes the window test, whose two boundaries are inclusive, so an
action dated exactly 7 days before or after counts as present and suppresses
Case D. -/
theorem c6_caseD_iff (warningsTable : List Warning)
    (actionLog : List ActionLogEntry) (agentEmail leaderEmail : String)
    (weeksData : List WeekData) :
    ((evaluateCaseD warningsTable actionLog agentEmail leaderEmail weeksData).isSome ↔
       2 < (weeksData.filter isUnderperformingWeek).length ∧
       ∃ firstWeek, (weeksData.filter isUnderperformingWeek).head? = some firstWeek ∧
         checkLeaderAction warningsTable actionLog agentEmail firstWeek.start_date = false) ∧
    (∀ s : Int, checkLeaderAction warningsTable actionLog agentEmail s = true ↔
       ((∃ w ∈ warningsTable, w.agent_email = agentEmail ∧
           s - 7 ≤ w.issue_date ∧ w.issue_date ≤ s + 7) ∨
        (∃ e ∈ actionLog, e.agent_email = agentEmail ∧
           s - 7 ≤ e.action_date ∧ e.action_date ≤ s + 7))) := by
  constructor
  · cases hL : weeksData.filter isUnderperformingWeek with
    | nil => simp [evaluateCaseD, hL]
    | cons fw rest =>
      by_cases hlen : (fw :: rest).length ≤ 2
      · simp only [evaluateCaseD, hL, if_pos hlen, Option.isSome_none,
          Bool.false_eq_true, false_iff, not_and]
        intro hgt
        omega
      · by_cases hact : checkLeaderAction warningsTable actionLog agentEmail fw.start_date
        · simp [evaluateCaseD, hL, hlen, hact]
        · simp [evaluateCaseD, hL, hlen, hact]
          omega
  · intro s
    unfold checkLeaderAction
    dsimp only
    rw [decide_eq_true_eq]
    rw [gt_iff_lt, add_pos_iff]
    rw [List.length_pos_iff_exists_mem, List.length_pos_iff_exists_mem]
    simp only [List.mem_filter, Bool.and_eq_true, beq_iff_eq, decide_eq_true_eq,
      ge_iff_le, and_assoc]

/-- Witness for C6: three underperforming weeks with empty warnings and
action-log tables make Case D apply. -/
theorem c6_witness :
    (evaluateCaseD [] [] "agent@example.com" "lead@example.com" threeBadWeeks).isSome :=
  (c6_caseD_iff [] [] "agent@example.com" "lead@example.com" threeBadWeeks).1.mpr
    ⟨by decide, badWeek, by decide, by decide⟩

/-- C7: Leadership Case E applies iff the leader has at least 1 active,
unexpired leadership report at evaluation time, and every firing produces
the same fixed outcome — Second Report, Written warning for the leader,
priority Critical — so additional prior reports do not increase severity. -/
theorem c7_caseE_iff (reportsTable : List LeadershipReport) (today : Int)
    (leaderEmail : String) :
    ((evaluateCaseE reportsTable today leaderEmail).isSome ↔
       1 ≤ (getActiveLeadershipReports reportsTable today leaderEmail).length) ∧
    (∀ p, evaluateCaseE reportsTable today leaderEmail = some p →
       p.caseType = "E" ∧
       p.recommendation = "Second Leadership Behavior Report + Written Warning for Leader" ∧
       p.priority = "Critical" ∧ p.leaderEmail = leaderEmail) := by
  constructor
  · unfold evaluateCaseE
    dsimp only
    split <;> simp_all
  · intro p hp
    unfold evaluateCaseE at hp
    dsimp only at hp
    split at hp
    · cases hp; exact ⟨rfl, rfl, rfl, rfl⟩
    · cases hp

/-- Witness for C7: one active, unexpired leadership report makes Case E
apply. -/
theorem c7_witness :
    (evaluateCaseE [sampleReport] 0 "lead@example.com").isSome :=
  (c7_caseE_iff [sampleReport] 0 "lead@example.com").1.mpr (by decide)

/-- C8 counterexample: recording a Verbal warning with a caller-supplied
issue date of day 0 while the current date is day 10 stores expiration day
100 (current date + 90), not issue date + 90 = day 90 — the claim that the
stored expiration always equals issue date plus the configured duration
fails when the supplied issue date differs from the current date. -/
theorem c8_counterexample :
    ¬ ((recordWarningRow 10 c8Input).expiration_date =
        some ((recordWarningRow 10 c8Input).issue_date + 90)) := by
  decide

/-- C8 (amended): the stored expiration date equals the recording-time
current date plus the configured duration for the kind (90 days for Verbal,
180 for Written) and is null for Coaching; the stored row is Active; and
only when the caller omits the issue date (so that it defaults to the
current date) does the expiration equal issue date + duration. -/
theorem c8_expiration_anchored_at_now (now : Int) (d : WarningInput) :
    (d.warningType = "Verbal" →
       (recordWarningRow now d).expiration_date = some (now + 90)) ∧
    (d.warningType = "Written" →
       (recordWarningRow now d).expiration_date = some (now + 180)) ∧
    (d.warningType = "Coaching" →
       (recordWarningRow now d).expiration_date = none) ∧
    (recordWarningRow now d).status = "Active" ∧
    (d.issuedDate = none → (recordWarningRow now d).issue_date = now) ∧
    (d.issuedDate = none → d.warningType = "Verbal" →
       (recordWarningRow now d).expiration_date =
         some ((recordWarningRow now d).issue_date + 90)) := by
  refine ⟨?_, ?_, ?_, rfl, ?_, ?_⟩
  · intro h
    simp [recordWarningRow, WARNING_EXPIRATION, h]
  · intro h
    simp [recordWarningRow, WARNING_EXPIRATION, h]
  · intro h
    simp [recordWarningRow, WARNING_EXPIRATION, h]
  · intro h
    simp [recordWarningRow, h]
  · intro h hv
    simp [recordWarningRow, WARNING_EXPIRATION, h, hv]

/-- Witness for C8 (amended): recording a Verbal warning at current date 0
with no supplied issue date stores expiration day 0 + 90. -/
theorem c8_witness :
    (recordWarningRow 0 { warningType := "Verbal", issuedDate := none }).expiration_date =
      some (0 + 90) :=
  (c8_expiration_anchored_at_now 0 { warningType := "Verbal", issuedDate := none }).1 rfl

/-- C9 counterexample: a store holding exactly one active Written warning is
an input the rule set of the spec does not unambiguously classify (Written
count 1 matches none of the descriptions of Cases A, B, C nor the
no-active-warnings description of the First fallback), yet the engine
silently returns the First fallback rather than any distinct ambiguous-state
result. -/
theorem c9_counterexample :
    ¬ specRuleSetClassifies (getActiveWarnings oneWrittenStore 0 "agent@example.com" "QA") ∧
    (generateRecommendation oneWrittenStore 0 "agent@example.com" "QA" 0 0).caseType = "First" ∧
    (generateRecommendation oneWrittenStore 0 "agent@example.com" "QA" 0 0).priority = "Low" := by
  exact ⟨by decide, rfl, rfl⟩

/-- C9 (amended): the engine has no ambiguous-state result: on every input
that the rule set of the spec does not unambiguously classify, evaluation
silently returns the First fallback with priority Low. -/
theorem c9_no_ambiguous_result (store : List Warning) (today : Int)
    (agentEmail metricType : String) (ws we : Int)
    (h : ¬ specRuleSetClassifies (getActiveWarnings store today agentEmail metricType)) :
    (generateRecommendation store today agentEmail metricType ws we).caseType = "First" ∧
    (generateRecommendation store today agentEmail metricType ws we).priority = "Low" := by
  have hcounts :
      countWarningsByType (getActiveWarnings store today agentEmail metricType) "Verbal" = 0 ∧
      countWarningsByType (getActiveWarnings store today agentEmail metricType) "Written" = 1 := by
    unfold specRuleSetClassifies at h
    dsimp only at h
    omega
  exact firstFallback_of_counts store today agentEmail metricType ws we hcounts.1 hcounts.2

/-- Witness for C9 (amended): evaluated at day 5 on the single-Written
store, the engine returns the First fallback with priority Low. -/
theorem c9_witness :
    (generateRecommendation oneWrittenStore 5 "agent@example.com" "QA" 0 0).caseType = "First" ∧
    (generateRecommendation oneWrittenStore 5 "agent@example.com" "QA" 0 0).priority = "Low" :=
  c9_no_ambiguous_result oneWrittenStore 5 "agent@example.com" "QA" 0 0 (by decide)
